import Mathlib

/-!
Shallow embedding of the non-UI core of `src/main.py` (a Tkinter food-bazaar
point-of-sale app): SHA-256 password hashing (`hashlib.sha256(...).hexdigest()`),
the credential-document seeding branch of `ensure_files_exist`, the order
placement flow `BazaarApp.place_order`, the admin gate `BazaarApp.open_admin_login`
and the password change flow `BazaarApp._admin_change_password`.

Machine 32-bit words are modelled as `Nat` reduced `% 2 ^ 32`; Python `str`
as `String`; a `simpledialog.askstring` answer as `Option String` (cancel is
`none`); the JSON config dict as an insertion-ordered association list; the
fallibility of the persist step as an explicit boolean input.
-/

deriving instance DecidableEq for Except

/-! ## SHA-256, as computed by `hashlib.sha256` on the UTF-8 bytes of a string -/

def w32 : Nat := 2 ^ 32

def add32 (a b : Nat) : Nat := (a + b) % w32

def rotr32 (n x : Nat) : Nat := ((x >>> n) ||| (x <<< (32 - n))) % w32

def bnot32 (x : Nat) : Nat := x ^^^ (w32 - 1)

def bigSigma0 (x : Nat) : Nat := rotr32 2 x ^^^ rotr32 13 x ^^^ rotr32 22 x

def bigSigma1 (x : Nat) : Nat := rotr32 6 x ^^^ rotr32 11 x ^^^ rotr32 25 x

def smallSigma0 (x : Nat) : Nat := rotr32 7 x ^^^ rotr32 18 x ^^^ (x >>> 3)

def smallSigma1 (x : Nat) : Nat := rotr32 17 x ^^^ rotr32 19 x ^^^ (x >>> 10)

def chFn (x y z : Nat) : Nat := (x &&& y) ^^^ (bnot32 x &&& z)

def majFn (x y z : Nat) : Nat := (x &&& y) ^^^ (x &&& z) ^^^ (y &&& z)

/-- The 64 SHA-256 round constants, written in decimal. -/
def shaK : List Nat :=
  [1116352408, 1899447441, 3049323471, 3921009573, 961987163,
   1508970993, 2453635748, 2870763221, 3624381080, 310598401,
   607225278, 1426881987, 1925078388, 2162078206, 2614888103,
   3248222580, 3835390401, 4022224774, 264347078, 604807628,
   770255983, 1249150122, 1555081692, 1996064986, 2554220882,
   2821834349, 2952996808, 3210313671, 3336571891, 3584528711,
   113926993, 338241895, 666307205, 773529912, 1294757372,
   1396182291, 1695183700, 1986661051, 2177026350, 2456956037,
   2730485921, 2820302411, 3259730800, 3345764771, 3516065817,
   3600352804, 4094571909, 275423344, 430227734, 506948616,
   659060556, 883997877, 958139571, 1322822218, 1537002063,
   1747873779, 1955562222, 2024104815, 2227730452, 2361852424,
   2428436474, 2756734187, 3204031479, 3329325298]

structure Digest where
  h0 : Nat
  h1 : Nat
  h2 : Nat
  h3 : Nat
  h4 : Nat
  h5 : Nat
  h6 : Nat
  h7 : Nat
deriving DecidableEq

/-- The eight SHA-256 initial hash values, written in decimal. -/
def initDigest : Digest :=
  ⟨1779033703, 3144134277, 1013904242, 2773480762,
   1359893119, 2600822924, 528734635, 1541459225⟩

/-- Big-endian 32-bit words from a byte list (four bytes per word, trailing
incomplete chunk dropped; padded input length is always a multiple of four). -/
def toWords : List Nat → List Nat
  | b0 :: b1 :: b2 :: b3 :: rest => (((b0 * 256 + b1) * 256 + b2) * 256 + b3) :: toWords rest
  | _ => []

/-- Next word of the SHA-256 message schedule, from the words built so far. -/
def wNext (w : List Nat) : Nat :=
  let t := w.length
  add32 (add32 (smallSigma1 (w.getD (t - 2) 0)) (w.getD (t - 7) 0))
    (add32 (smallSigma0 (w.getD (t - 15) 0)) (w.getD (t - 16) 0))

def extendW : Nat → List Nat → List Nat
  | 0, w => w
  | n + 1, w => extendW n (w ++ [wNext w])

def shaRound (k w : Nat) (s : Digest) : Digest :=
  let t1 := add32 s.h7 (add32 (bigSigma1 s.h4) (add32 (chFn s.h4 s.h5 s.h6) (add32 k w)))
  let t2 := add32 (bigSigma0 s.h0) (majFn s.h0 s.h1 s.h2)
  ⟨add32 t1 t2, s.h0, s.h1, s.h2, add32 s.h3 t1, s.h4, s.h5, s.h6⟩

def shaRounds : List (Nat × Nat) → Digest → Digest
  | [], s => s
  | kw :: rest, s => shaRounds rest (shaRound kw.1 kw.2 s)

def processBlock (s : Digest) (block : List Nat) : Digest :=
  let w := extendW 48 (toWords block)
  let r := shaRounds (shaK.zip w) s
  ⟨add32 s.h0 r.h0, add32 s.h1 r.h1, add32 s.h2 r.h2, add32 s.h3 r.h3,
   add32 s.h4 r.h4, add32 s.h5 r.h5, add32 s.h6 r.h6, add32 s.h7 r.h7⟩

def processBlocks : Nat → Digest → List Nat → Digest
  | 0, s, _ => s
  | n + 1, s, bytes => processBlocks n (processBlock s (bytes.take 64)) (bytes.drop 64)

/-- Big-endian byte list of a value, `n` bytes wide. -/
def beBytes : Nat → Nat → List Nat
  | 0, _ => []
  | n + 1, v => beBytes n (v / 256) ++ [v % 256]

/-- SHA-256 padding: append 0x80, zero bytes to 56 mod 64, then the bit length
as an 8-byte big-endian integer. -/
def shaPad (msg : List Nat) : List Nat :=
  let len := msg.length
  let zeros := (119 - len % 64) % 64
  msg ++ [0x80] ++ List.replicate zeros 0 ++ beBytes 8 (8 * len)

def sha256 (msg : List Nat) : Digest :=
  let padded := shaPad msg
  processBlocks (padded.length / 64) initDigest padded

def hexDigitChar (n : Nat) : Char :=
  if n < 10 then Char.ofNat (48 + n) else Char.ofNat (87 + n)

/-- Hexadecimal digits of a value, `n` digits wide, most significant first. -/
def hexNibbles : Nat → Nat → List Char
  | 0, _ => []
  | n + 1, v => hexNibbles n (v / 16) ++ [hexDigitChar (v % 16)]

def hexDigest (d : Digest) : String :=
  String.mk (hexNibbles 8 d.h0 ++ hexNibbles 8 d.h1 ++ hexNibbles 8 d.h2 ++ hexNibbles 8 d.h3 ++
    hexNibbles 8 d.h4 ++ hexNibbles 8 d.h5 ++ hexNibbles 8 d.h6 ++ hexNibbles 8 d.h7)

/-- UTF-8 bytes of one character, as `str.encode()` produces them. -/
def utf8Bytes (c : Char) : List Nat :=
  let n := c.toNat
  if n < 0x80 then [n]
  else if n < 0x800 then [0xc0 + n / 64, 0x80 + n % 64]
  else if n < 0x10000 then [0xe0 + n / 4096, 0x80 + (n / 64) % 64, 0x80 + n % 64]
  else [0xf0 + n / 262144, 0x80 + (n / 4096) % 64, 0x80 + (n / 64) % 64, 0x80 + n % 64]

def strBytes (s : String) : List Nat := (s.data.map utf8Bytes).flatten

/-- `hash_password` of `src/main.py`: `hashlib.sha256(pw.encode()).hexdigest()`. -/
def hash_password (pw : String) : String := hexDigest (sha256 (strBytes pw))

/-! ## Data model -/

structure MenuItem where
  id : Int
  name : String
  category : String
  price : Int
deriving DecidableEq

structure OrderItem where
  id : Int
  name : String
  price : Int
  qty : Int
deriving DecidableEq

structure OrderRecord where
  timestamp : String
  buyer : String
  note : String
  items : List OrderItem
  total : Int
deriving DecidableEq

/-- The six-item seed catalog written by `ensure_files_exist` when `menu.json`
is absent. -/
def sample_menu : List MenuItem :=
  [⟨1, "Nasi Goreng", "Makanan", 12000⟩,
   ⟨2, "Mie Goreng", "Makanan", 10000⟩,
   ⟨3, "Bakso", "Makanan", 15000⟩,
   ⟨4, "Es Teh Manis", "Minuman", 5000⟩,
   ⟨5, "Jus Jeruk", "Minuman", 8000⟩,
   ⟨6, "Roti Bakar", "Snack", 7000⟩]

/-- The credential document as a JSON object: an insertion-ordered list of
string key and value pairs, as Python dicts preserve insertion order. -/
abbrev Config := List (String × String)

/-- `dict.get(key, "")`, the read used by `open_admin_login`. -/
def cfgGet : Config → String → String
  | [], _ => ""
  | kv :: rest, k => if kv.1 = k then kv.2 else cfgGet rest k

/-- `dict[key] = v`: replace the value at the first occurrence of the key in
place, or append the key if absent. -/
def cfgSet : Config → String → String → Config
  | [], k, v => [(k, v)]
  | kv :: rest, k, v => if kv.1 = k then (k, v) :: rest else kv :: cfgSet rest k v

/-- The `CONFIG_FILE` branch of `ensure_files_exist`: when the document is
absent, materialize the default credential; otherwise leave it as it is. -/
def ensure_config (existing : Option Config) : Config :=
  match existing with
  | some cfg => cfg
  | none => [("admin_password_sha256", hash_password "admin123")]

/-! ## Order placement (`BazaarApp.place_order`) -/

inductive OrderError where
  | emptyCart
  | missingBuyer
  | storageError
deriving DecidableEq

/-- In-memory `self.orders` and the persisted `orders.json` content. -/
structure OrderState where
  orders : List OrderRecord
  diskOrders : List OrderRecord
deriving DecidableEq

/-- `next((x for x in self.menu_items if x["id"] == item_id), None)`. -/
def findItem (menu : List MenuItem) (itemId : Int) : Option MenuItem :=
  menu.find? (fun x => x.id = itemId)

/-- The order-building loop of `place_order`: resolve each cart line against
the menu (dropping lines whose id has no menu entry), collect the order items
in cart order and sum `price * qty`. -/
def buildOrder (menu : List MenuItem) : List (Int × Int) → List OrderItem × Int
  | [] => ([], 0)
  | line :: rest =>
    let tail := buildOrder menu rest
    match findItem menu line.1 with
    | none => tail
    | some item => (⟨line.1, item.name, item.price, line.2⟩ :: tail.1,
        item.price * line.2 + tail.2)

/-- `BazaarApp.place_order`. The cart is the insertion-ordered list of
(item id, quantity) pairs of `self.cart`; `buyer` and `note` are the two
`askstring` answers (`none` is a cancelled dialog); `ts` is the formatted
`datetime.datetime.utcnow()` value; `saveOk` tells whether the `save_orders`
call succeeds. The function first returns on an empty cart, then on a falsy
buyer answer; otherwise it builds the record, appends it to the in-memory
log and then persists; a failing persist step leaves the appended record in
memory because nothing catches it. -/
def place_order (menu : List MenuItem) (cart : List (Int × Int))
    (buyer note : Option String) (ts : String) (saveOk : Bool)
    (st : OrderState) : Except OrderError OrderRecord × OrderState :=
  match cart with
  | [] => (.error .emptyCart, st)
  | _ :: _ =>
    match buyer with
    | none => (.error .missingBuyer, st)
    | some b =>
      if b = "" then (.error .missingBuyer, st)
      else
        let built := buildOrder menu cart
        let order : OrderRecord :=
          { timestamp := ts, buyer := b, note := note.getD "",
            items := built.1, total := built.2 }
        let newOrders := st.orders ++ [order]
        if saveOk then (.ok order, ⟨newOrders, newOrders⟩)
        else (.error .storageError, ⟨newOrders, st.diskOrders⟩)

/-! ## Admin gate (`BazaarApp.open_admin_login`, `BazaarApp._admin_change_password`) -/

/-- `BazaarApp.open_admin_login`: a cancelled prompt returns without an
outcome; otherwise the SHA-256 hex digest of the input is compared with
`self.config.get("admin_password_sha256", "")`. The config is only read, so
it is returned unchanged. -/
def open_admin_login (cfg : Config) (pw : Option String) : Option Bool × Config :=
  match pw with
  | none => (none, cfg)
  | some p => (some (hash_password p = cfgGet cfg "admin_password_sha256"), cfg)

inductive PwError where
  | emptyPassword
  | mismatch
deriving DecidableEq

/-- In-memory `self.config` and the persisted `config.json` content. -/
structure ConfigState where
  config : Config
  diskConfig : Config
deriving DecidableEq

/-- `BazaarApp._admin_change_password`: a falsy first answer cancels; a second
answer different from the first is a mismatch; otherwise the new hash is
stored in the config and the config is persisted. -/
def _admin_change_password (newPw confirm : Option String) (st : ConfigState) :
    Except PwError Unit × ConfigState :=
  match newPw with
  | none => (.error .emptyPassword, st)
  | some p =>
    if p = "" then (.error .emptyPassword, st)
    else if confirm ≠ some p then (.error .mismatch, st)
    else
      let cfg2 := cfgSet st.config "admin_password_sha256" (hash_password p)
      (.ok (), ⟨cfg2, cfg2⟩)

/-! ## Helper definitions and lemmas -/

/-- Price of the first catalog entry with the given id, zero when absent. -/
def priceOf (menu : List MenuItem) (i : Int) : Int :=
  match findItem menu i with
  | some item => item.price
  | none => 0

/-- Name of the first catalog entry with the given id, empty when absent. -/
def nameOf (menu : List MenuItem) (i : Int) : String :=
  match findItem menu i with
  | some item => item.name
  | none => ""

theorem buildOrder_eq (menu : List MenuItem) (cart : List (Int × Int))
    (h : ∀ l ∈ cart, (findItem menu l.1).isSome) :
    buildOrder menu cart =
      (cart.map (fun l => ⟨l.1, nameOf menu l.1, priceOf menu l.1, l.2⟩),
       (cart.map (fun l => l.2 * priceOf menu l.1)).sum) := by
  induction cart with
  | nil => rfl
  | cons l rest ih =>
    have hl : (findItem menu l.1).isSome := h l (by simp)
    obtain ⟨item, hitem⟩ := Option.isSome_iff_exists.mp hl
    have hrest := ih (fun x hx => h x (by simp [hx]))
    simp only [buildOrder, hrest, hitem, List.map_cons, List.sum_cons, priceOf, nameOf,
      Prod.mk.injEq]
    exact ⟨trivial, by ring⟩

/-- The successful branch of `place_order`: a returned record comes from a
present buyer answer that is not empty, a succeeding save, and equals the
record built from the cart. -/
theorem place_order_ok_elim (menu : List MenuItem) (cart : List (Int × Int))
    (buyer note : Option String) (ts : String) (saveOk : Bool) (st : OrderState)
    (r : OrderRecord)
    (hok : (place_order menu cart buyer note ts saveOk st).1 = .ok r) :
    ∃ b, buyer = some b ∧ b ≠ "" ∧ saveOk = true ∧
      r = ⟨ts, b, note.getD "", (buildOrder menu cart).1, (buildOrder menu cart).2⟩ := by
  cases cart with
  | nil => simp [place_order] at hok
  | cons l rest =>
    cases buyer with
    | none => simp [place_order] at hok
    | some b =>
      by_cases hb : b = ""
      · simp [place_order, hb] at hok
      · cases saveOk with
        | false => simp [place_order, hb] at hok
        | true =>
          simp [place_order, hb] at hok
          exact ⟨b, rfl, hb, rfl, hok.symm⟩

theorem cfgGet_cfgSet_self (cfg : Config) (k v : String) :
    cfgGet (cfgSet cfg k v) k = v := by
  induction cfg with
  | nil => simp [cfgSet, cfgGet]
  | cons kv rest ih =>
    by_cases hk : kv.1 = k
    · simp [cfgSet, cfgGet, hk]
    · simp [cfgSet, cfgGet, hk, ih]

theorem cfgGet_of_missing (cfg : Config) (k : String)
    (h : ∀ kv ∈ cfg, kv.1 ≠ k) : cfgGet cfg k = "" := by
  induction cfg with
  | nil => rfl
  | cons kv rest ih =>
    have hne : kv.1 ≠ k := h kv (by simp)
    simp only [cfgGet, if_neg hne]
    exact ih (fun x hx => h x (by simp [hx]))

theorem hexNibbles_length (n v : Nat) : (hexNibbles n v).length = n := by
  induction n generalizing v with
  | zero => rfl
  | succ m ih => simp [hexNibbles, ih]

theorem hash_password_length (pw : String) : (hash_password pw).length = 64 := by
  simp [hash_password, hexDigest, String.length, List.length_append, hexNibbles_length]

theorem hash_password_ne_empty (pw : String) : hash_password pw ≠ "" := by
  intro h
  have := hash_password_length pw
  rw [h] at this
  simp [String.length] at this

/-! ## Claim theorems -/

/-- C1: for every non-empty cart whose every line references an id present in
the menu catalog, a record returned by `place_order` has a total equal to the
sum over the cart lines of quantity times the catalog price of that item, and
its items sequence has one entry (id, name, price, qty) per cart line. -/
theorem place_order_total_and_items (menu : List MenuItem) (cart : List (Int × Int))
    (buyer note : Option String) (ts : String) (saveOk : Bool) (st : OrderState)
    (r : OrderRecord)
    (_hne : cart ≠ [])
    (hvalid : ∀ l ∈ cart, ∃ item ∈ menu, item.id = l.1)
    (hok : (place_order menu cart buyer note ts saveOk st).1 = .ok r) :
    r.total = (cart.map (fun l => l.2 * priceOf menu l.1)).sum ∧
    r.items = cart.map (fun l => ⟨l.1, nameOf menu l.1, priceOf menu l.1, l.2⟩) := by
  have hsome : ∀ l ∈ cart, (findItem menu l.1).isSome := by
    intro l hl
    obtain ⟨item, hmem, hid⟩ := hvalid l hl
    simp only [findItem, List.find?_isSome]
    exact ⟨item, hmem, by simp [hid]⟩
  obtain ⟨b, _, _, _, hr⟩ := place_order_ok_elim menu cart buyer note ts saveOk st r hok
  rw [hr, buildOrder_eq menu cart hsome]
  exact ⟨rfl, rfl⟩

/-- C1 witness: the seed catalog, the cart with two units of item 1, buyer
Budi, a successful save. -/
theorem place_order_total_and_items_witness :
    (([(1, 2)] : List (Int × Int)) ≠ [] ∧
      (∀ l ∈ ([(1, 2)] : List (Int × Int)), ∃ item ∈ sample_menu, item.id = l.1) ∧
      (place_order sample_menu [(1, 2)] (some "Budi") none "t" true ⟨[], []⟩).1 =
        .ok ⟨"t", "Budi", "", [⟨1, "Nasi Goreng", 12000, 2⟩], 24000⟩) ∧
    ((⟨"t", "Budi", "", [⟨1, "Nasi Goreng", 12000, 2⟩], 24000⟩ : OrderRecord).total =
      (([(1, 2)] : List (Int × Int)).map (fun l => l.2 * priceOf sample_menu l.1)).sum ∧
      (⟨"t", "Budi", "", [⟨1, "Nasi Goreng", 12000, 2⟩], 24000⟩ : OrderRecord).items =
        ([(1, 2)] : List (Int × Int)).map
          (fun l => ⟨l.1, nameOf sample_menu l.1, priceOf sample_menu l.1, l.2⟩)) :=
  ⟨⟨by decide, by decide, by decide⟩,
    place_order_total_and_items sample_menu [(1, 2)] (some "Budi") none "t" true ⟨[], []⟩
      ⟨"t", "Budi", "", [⟨1, "Nasi Goreng", 12000, 2⟩], 24000⟩
      (by decide) (by decide) (by decide)⟩

/-- C2 counterexample: a buyer answer of a single space is whitespace-only,
yet with a non-empty cart the order is accepted and appended, not rejected. -/
theorem place_order_whitespace_buyer_accepted :
    (place_order sample_menu [(1, 2)] (some " ") none "t" true ⟨[], []⟩).1 =
      .ok ⟨"t", " ", "", [⟨1, "Nasi Goreng", 12000, 2⟩], 24000⟩ ∧
    (place_order sample_menu [(1, 2)] (some " ") none "t" true ⟨[], []⟩).2.orders =
      [⟨"t", " ", "", [⟨1, "Nasi Goreng", 12000, 2⟩], 24000⟩] ∧
    (place_order sample_menu [(1, 2)] (some " ") none "t" true ⟨[], []⟩).2.diskOrders =
      [⟨"t", " ", "", [⟨1, "Nasi Goreng", 12000, 2⟩], 24000⟩] := by
  decide

/-- C2 amended: with a non-empty cart, a cancelled or empty buyer answer
fails as a missing buyer and the order state, in memory and on disk, is
unchanged; the check is only for falsiness, so a whitespace-only non-empty
buyer is accepted. -/
theorem place_order_falsy_buyer (menu : List MenuItem) (cart : List (Int × Int))
    (buyer note : Option String) (ts : String) (saveOk : Bool) (st : OrderState)
    (hne : cart ≠ []) (hb : buyer = none ∨ buyer = some "") :
    place_order menu cart buyer note ts saveOk st = (.error .missingBuyer, st) := by
  cases cart with
  | nil => exact absurd rfl hne
  | cons l rest => rcases hb with rfl | rfl <;> simp [place_order]

/-- C2 witness: empty buyer answer on the unit cart of item 1. -/
theorem place_order_falsy_buyer_witness :
    (([(1, 2)] : List (Int × Int)) ≠ [] ∧
      ((some "" : Option String) = none ∨ (some "" : Option String) = some "")) ∧
    place_order sample_menu [(1, 2)] (some "") none "t" true ⟨[], []⟩ =
      (.error .missingBuyer, ⟨[], []⟩) :=
  ⟨⟨by decide, by decide⟩,
    place_order_falsy_buyer sample_menu [(1, 2)] (some "") none "t" true ⟨[], []⟩
      (by decide) (by decide)⟩

/-- C3 counterexample: the materialized credential document has no field
named admin_password_hash; its only key is admin_password_sha256. -/
theorem ensure_config_field_name :
    ((ensure_config none).find? (fun kv => kv.1 = "admin_password_hash")) = none ∧
    (ensure_config none).map Prod.fst = ["admin_password_sha256"] := by
  constructor <;> rfl

/-- C3 amended: when the credential document is absent, the first load
materializes a document whose field named admin_password_sha256 holds the
SHA-256 hex digest of the string admin123. -/
theorem ensure_config_default_hash :
    cfgGet (ensure_config none) "admin_password_sha256" = hash_password "admin123" ∧
    hash_password "admin123" =
      "240be518fabd2724ddb6f04eeb1da5967448d7e831c08c8fa822809f74c720a9" :=
  ⟨rfl, by decide⟩

/-- C4 counterexample: a failing persist step leaves the appended record in
the in-memory log while the disk log is unchanged, so the in-memory log
differs from its pre-append state. -/
theorem place_order_save_failure_ghost :
    (place_order sample_menu [(1, 2)] (some "Budi") none "t" false ⟨[], []⟩).1 =
      .error .storageError ∧
    (place_order sample_menu [(1, 2)] (some "Budi") none "t" false ⟨[], []⟩).2.orders =
      [⟨"t", "Budi", "", [⟨1, "Nasi Goreng", 12000, 2⟩], 24000⟩] ∧
    (place_order sample_menu [(1, 2)] (some "Budi") none "t" false ⟨[], []⟩).2.diskOrders =
      [] ∧
    (place_order sample_menu [(1, 2)] (some "Budi") none "t" false ⟨[], []⟩).2.orders ≠
      (⟨[], []⟩ : OrderState).orders := by
  decide

/-- C4 amended: when the persist step fails on the success path, the call
reports a storage failure, the in-memory log keeps the appended record (no
rollback happens), and the disk log is unchanged. -/
theorem place_order_no_rollback (menu : List MenuItem) (cart : List (Int × Int))
    (note : Option String) (ts : String) (st : OrderState) (b : String)
    (hne : cart ≠ []) (hb : b ≠ "") :
    (place_order menu cart (some b) note ts false st).1 = .error .storageError ∧
    (place_order menu cart (some b) note ts false st).2.orders =
      st.orders ++
        [⟨ts, b, note.getD "", (buildOrder menu cart).1, (buildOrder menu cart).2⟩] ∧
    (place_order menu cart (some b) note ts false st).2.diskOrders = st.diskOrders := by
  cases cart with
  | nil => exact absurd rfl hne
  | cons l rest => simp [place_order, hb]

/-- C4 witness: failing save on the unit cart of item 1. -/
theorem place_order_no_rollback_witness :
    (([(1, 2)] : List (Int × Int)) ≠ [] ∧ ("Budi" : String) ≠ "") ∧
    ((place_order sample_menu [(1, 2)] (some "Budi") none "t" false ⟨[], []⟩).1 =
      .error .storageError ∧
    (place_order sample_menu [(1, 2)] (some "Budi") none "t" false ⟨[], []⟩).2.orders =
      ([] : List OrderRecord) ++
        [⟨"t", "Budi", "", (buildOrder sample_menu [(1, 2)]).1,
          (buildOrder sample_menu [(1, 2)]).2⟩] ∧
    (place_order sample_menu [(1, 2)] (some "Budi") none "t" false ⟨[], []⟩).2.diskOrders =
      ([] : List OrderRecord)) :=
  ⟨⟨by decide, by decide⟩,
    place_order_no_rollback sample_menu [(1, 2)] none "t" ⟨[], []⟩ "Budi"
      (by decide) (by decide)⟩

/-- C5: for every stored credential document and input string, the admin
login compares the SHA-256 hex digest of the input with the stored hash:
it always yields a boolean outcome (never a crash), the outcome is granted
exactly when the digest equals the stored hash, and the credential document
is unchanged. -/
theorem open_admin_login_correct (cfg : Config) (pw : String) :
    (∃ b : Bool, (open_admin_login cfg (some pw)).1 = some b) ∧
    ((open_admin_login cfg (some pw)).1 = some true ↔
      hash_password pw = cfgGet cfg "admin_password_sha256") ∧
    ((open_admin_login cfg (some pw)).1 = some false ↔
      hash_password pw ≠ cfgGet cfg "admin_password_sha256") ∧
    (open_admin_login cfg (some pw)).2 = cfg := by
  refine ⟨⟨_, rfl⟩, ?_, ?_, rfl⟩ <;> simp [open_admin_login]

/-- C6: on an empty cart, `place_order` fails as an empty cart and leaves
both the in-memory order log and the persisted order log unchanged. -/
theorem place_order_empty_cart (menu : List MenuItem) (buyer note : Option String)
    (ts : String) (saveOk : Bool) (st : OrderState) :
    (place_order menu [] buyer note ts saveOk st).1 = .error .emptyCart ∧
    (place_order menu [] buyer note ts saveOk st).2.orders = st.orders ∧
    (place_order menu [] buyer note ts saveOk st).2.diskOrders = st.diskOrders :=
  ⟨rfl, rfl, rfl⟩

/-- C7 counterexample: with an empty new password and a different
confirmation, the change fails on the falsiness check as a cancellation,
not as a mismatch. -/
theorem change_password_empty_not_mismatch :
    (_admin_change_password (some "") (some "x") ⟨[], []⟩).1 = .error .emptyPassword ∧
    (_admin_change_password (some "") (some "x") ⟨[], []⟩).1 ≠ .error .mismatch := by
  decide

/-- C7 amended: for every non-empty p and every q different from p, the
password change fails as a mismatch and the credential document, in memory
and on disk, is unchanged; an empty p instead fails on the falsiness check
before the confirmation is compared. -/
theorem change_password_mismatch (p q : String) (st : ConfigState)
    (hp : p ≠ "") (hpq : p ≠ q) :
    _admin_change_password (some p) (some q) st = (.error .mismatch, st) := by
  have hq : (some q : Option String) ≠ some p := by
    simpa using (Ne.symm hpq)
  simp [_admin_change_password, hp, hq]

/-- C7 witness: distinct non-empty passwords a and b. -/
theorem change_password_mismatch_witness :
    (("a" : String) ≠ "" ∧ ("a" : String) ≠ "b") ∧
    _admin_change_password (some "a") (some "b") ⟨[], []⟩ =
      (.error .mismatch, ⟨[], []⟩) :=
  ⟨⟨by decide, by decide⟩,
    change_password_mismatch "a" "b" ⟨[], []⟩ (by decide) (by decide)⟩

/-- C8: changing the password to a non-empty p with matching confirmation
succeeds; afterwards authenticating with p is granted while authenticating
with the previously valid password is refused, the two digests being
distinct. -/
theorem change_password_rotates (p old : String) (st : ConfigState)
    (hp : p ≠ "")
    (_hold : cfgGet st.config "admin_password_sha256" = hash_password old)
    (hdist : hash_password old ≠ hash_password p) :
    (_admin_change_password (some p) (some p) st).1 = .ok () ∧
    (open_admin_login (_admin_change_password (some p) (some p) st).2.config
      (some p)).1 = some true ∧
    (open_admin_login (_admin_change_password (some p) (some p) st).2.config
      (some old)).1 = some false := by
  have hcfg : (_admin_change_password (some p) (some p) st).2.config =
      cfgSet st.config "admin_password_sha256" (hash_password p) := by
    simp [_admin_change_password, hp]
  have hget : cfgGet (_admin_change_password (some p) (some p) st).2.config
      "admin_password_sha256" = hash_password p := by
    rw [hcfg, cfgGet_cfgSet_self]
  refine ⟨by simp [_admin_change_password, hp], ?_, ?_⟩
  · simp [open_admin_login, hget]
  · simp [open_admin_login, hget, hdist]

/-- C8 witness: rotate from the default admin123 to newpass on the
materialized default credential document. -/
theorem change_password_rotates_witness :
    (("newpass" : String) ≠ "" ∧
      cfgGet (⟨ensure_config none, ensure_config none⟩ : ConfigState).config
        "admin_password_sha256" = hash_password "admin123" ∧
      hash_password "admin123" ≠ hash_password "newpass") ∧
    ((_admin_change_password (some "newpass") (some "newpass")
        ⟨ensure_config none, ensure_config none⟩).1 = .ok () ∧
      (open_admin_login (_admin_change_password (some "newpass") (some "newpass")
        ⟨ensure_config none, ensure_config none⟩).2.config (some "newpass")).1 =
        some true ∧
      (open_admin_login (_admin_change_password (some "newpass") (some "newpass")
        ⟨ensure_config none, ensure_config none⟩).2.config (some "admin123")).1 =
        some false) :=
  ⟨⟨by decide, rfl, by decide⟩,
    change_password_rotates "newpass" "admin123" ⟨ensure_config none, ensure_config none⟩
      (by decide) rfl (by decide)⟩

/-- C9: when the loaded credential mapping has no stored-hash key, the
comparison falls back to the empty-string default, and since a SHA-256 hex
digest always has 64 characters the login is refused for every input and
never crashes. -/
theorem open_admin_login_missing_key (cfg : Config) (pw : String)
    (h : ∀ kv ∈ cfg, kv.1 ≠ "admin_password_sha256") :
    (open_admin_login cfg (some pw)).1 = some false ∧
    (hash_password pw).length = 64 := by
  have hget : cfgGet cfg "admin_password_sha256" = "" :=
    cfgGet_of_missing cfg "admin_password_sha256" h
  refine ⟨?_, hash_password_length pw⟩
  simp [open_admin_login, hget, hash_password_ne_empty pw]

/-- C9 witness: a credential document holding only an unrelated key. -/
theorem open_admin_login_missing_key_witness :
    (∀ kv ∈ ([("x", "y")] : Config), kv.1 ≠ "admin_password_sha256") ∧
    ((open_admin_login [("x", "y")] (some "pw")).1 = some false ∧
      (hash_password "pw").length = 64) :=
  ⟨by decide, open_admin_login_missing_key [("x", "y")] "pw" (by decide)⟩

/-- C10: every record returned by `place_order` stores the note answer with
a falsy answer replaced by the empty string; in particular a cancelled note
prompt yields an empty note, never a null one. -/
theorem place_order_note_total (menu : List MenuItem) (cart : List (Int × Int))
    (buyer note : Option String) (ts : String) (saveOk : Bool) (st : OrderState)
    (r : OrderRecord)
    (hok : (place_order menu cart buyer note ts saveOk st).1 = .ok r) :
    r.note = note.getD "" ∧ (note = none → r.note = "") := by
  obtain ⟨b, _, _, _, hr⟩ := place_order_ok_elim menu cart buyer note ts saveOk st r hok
  subst hr
  exact ⟨rfl, fun hn => by simp [hn]⟩

/-- C10 witness: a cancelled note prompt on the unit cart of item 1. -/
theorem place_order_note_total_witness :
    ((place_order sample_menu [(1, 2)] (some "Budi") none "t" true ⟨[], []⟩).1 =
      .ok ⟨"t", "Budi", "", [⟨1, "Nasi Goreng", 12000, 2⟩], 24000⟩) ∧
    ((⟨"t", "Budi", "", [⟨1, "Nasi Goreng", 12000, 2⟩], 24000⟩ : OrderRecord).note =
      (none : Option String).getD "" ∧
      ((none : Option String) = none →
        (⟨"t", "Budi", "", [⟨1, "Nasi Goreng", 12000, 2⟩], 24000⟩ : OrderRecord).note = "")) :=
  ⟨by decide,
    place_order_note_total sample_menu [(1, 2)] (some "Budi") none "t" true ⟨[], []⟩
      ⟨"t", "Budi", "", [⟨1, "Nasi Goreng", 12000, 2⟩], 24000⟩ (by decide)⟩
